import Mathlib

/-!
Verification development for the nglui library: a shallow embedding of its
segment-properties encoder, state-builder (ViewerState, layers, DataMaps)
and state parser, with theorems checking the natural-language specification
against the modelled behaviour.

The repository ships only documentation, changelogs and packaging metadata
in this snapshot, so every operation here is modelled from the spec and the
usage documentation (docs/usage/segmentprops.md, docs/usage/statebuilder.md,
docs/usage/parser.md) rather than translated from Python source.
-/

namespace Nglui

/-- A JSON value, the common currency of every exported document. -/
inductive Json where
  | str : String → Json
  | int : Int → Json
  | bool : Bool → Json
  | null : Json
  | arr : List Json → Json
  | obj : List (String × Json) → Json

/-- Look up a key in a JSON object; `none` when absent or not an object. -/
def Json.get? : Json → String → Option Json
  | .obj fields, k => fields.lookup k
  | _, _ => none

/-- Modelled from the spec: a scalar cell value as supplied by the user when
constructing segment properties (ids and property names may be given as
integers or strings; serialization coerces them to strings). -/
inductive CellValue where
  | str : String → CellValue
  | int : Int → CellValue
deriving Repr, DecidableEq

/-- Coercion of a cell value to a string, as applied at serialization time. -/
def CellValue.coerce : CellValue → String
  | .str s => s
  | .int n => toString n

/-- Read a cell value back as an integer when possible. -/
def CellValue.toInt? : CellValue → Option Int
  | .str s => s.toInt?
  | .int n => some n

/-- Modelled from the spec: a label property holds one string per segment id. -/
structure LabelProperty where
  values : List String
deriving Repr, DecidableEq

/-- Modelled from the spec: a description property holds one string per id. -/
structure DescriptionProperty where
  values : List String
deriving Repr, DecidableEq

/-- Modelled from the spec: a tag property holds the list of tag strings and,
for each segment id, the list of indices of the tags applied to it. -/
structure TagProperty where
  tags : List String
  values : List (List Nat)
deriving Repr, DecidableEq

/-- Modelled from the spec: a numeric property has a name (coerced to string
at serialization), one numeric value per id, and a data type string. -/
structure NumberProperty where
  id : CellValue
  values : List Int
  data_type : String
deriving Repr, DecidableEq

/-- Modelled from the spec: the SegmentProperties record, a list of segment
ids together with optional label, description and tag properties and any
number of numeric properties.  Construction performs no validation. -/
structure SegmentProperties where
  ids : List CellValue
  label_property : Option LabelProperty
  description_property : Option DescriptionProperty
  tag_property : Option TagProperty
  number_properties : List NumberProperty
deriving Repr, DecidableEq

namespace SegmentProperties

/-- The length check applied at serialization time: every property's value
list must have the same length as the id list. -/
def lengthsOk (sp : SegmentProperties) : Bool :=
  (match sp.label_property with
    | some l => l.values.length == sp.ids.length
    | none => true) &&
  (match sp.description_property with
    | some d => d.values.length == sp.ids.length
    | none => true) &&
  (match sp.tag_property with
    | some t => t.values.length == sp.ids.length
    | none => true) &&
  sp.number_properties.all (fun np => np.values.length == sp.ids.length)

/-- JSON entry for the label property. -/
def labelEntry (l : LabelProperty) : Json :=
  .obj [("id", .str "label"), ("type", .str "label"),
        ("values", .arr (l.values.map .str))]

/-- JSON entry for the description property. -/
def descriptionEntry (d : DescriptionProperty) : Json :=
  .obj [("id", .str "description"), ("type", .str "description"),
        ("values", .arr (d.values.map .str))]

/-- JSON entry for the tag property: the tag strings and per-id index lists. -/
def tagEntry (t : TagProperty) : Json :=
  .obj [("id", .str "tags"), ("type", .str "tags"),
        ("tags", .arr (t.tags.map .str)),
        ("values", .arr (t.values.map (fun idxs => .arr (idxs.map (fun i => Json.int (Int.ofNat i))))))]

/-- JSON entry for a numeric property; the property name is coerced to a
string. -/
def numberEntry (np : NumberProperty) : Json :=
  .obj [("id", .str np.id.coerce), ("type", .str "number"),
        ("values", .arr (np.values.map .int)),
        ("data_type", .str np.data_type)]

/-- The list of property entries of the serialized form. -/
def propertyEntries (sp : SegmentProperties) : List Json :=
  (match sp.label_property with | some l => [labelEntry l] | none => []) ++
  (match sp.description_property with | some d => [descriptionEntry d] | none => []) ++
  (match sp.tag_property with | some t => [tagEntry t] | none => []) ++
  sp.number_properties.map numberEntry

/-- Modelled from the spec: `SegmentProperties.to_dict` validates that all
property value lists have the same length as the id list and produces the
neuroglancer segment-properties JSON object; segment ids are coerced to
strings. -/
def to_dict (sp : SegmentProperties) : Except String Json :=
  if sp.lengthsOk then
    .ok (.obj [("@type", .str "neuroglancer_segment_properties"),
               ("inline", .obj [("ids", .arr (sp.ids.map (fun v => .str v.coerce))),
                                ("properties", .arr sp.propertyEntries)])])
  else
    .error "Property value lists must have the same length as the id list"

end SegmentProperties

/-- The length check succeeds exactly when every present property matches the
id list in length. -/
theorem lengthsOk_iff (sp : SegmentProperties) :
    sp.lengthsOk = true ↔
      ((∀ l, sp.label_property = some l → l.values.length = sp.ids.length) ∧
       (∀ d, sp.description_property = some d → d.values.length = sp.ids.length) ∧
       (∀ t, sp.tag_property = some t → t.values.length = sp.ids.length) ∧
       (∀ np ∈ sp.number_properties, np.values.length = sp.ids.length)) := by
  obtain ⟨ids, lp, dp, tp, nps⟩ := sp
  cases lp <;> cases dp <;> cases tp <;>
    simp [SegmentProperties.lengthsOk, List.all_eq_true, and_assoc]

/-- C1: constructing a SegmentProperties with mismatched-length id and value
lists raises no error (construction is unvalidated), and the to_dict
serialization raises an error if and only if some property's value list
length differs from the length of the id list. -/
theorem segment_properties_to_dict_error_iff_length_mismatch
    (sp : SegmentProperties) :
    (∃ e, sp.to_dict = Except.error e) ↔
      ((∃ l, sp.label_property = some l ∧ l.values.length ≠ sp.ids.length) ∨
       (∃ d, sp.description_property = some d ∧ d.values.length ≠ sp.ids.length) ∨
       (∃ t, sp.tag_property = some t ∧ t.values.length ≠ sp.ids.length) ∨
       (∃ np ∈ sp.number_properties, np.values.length ≠ sp.ids.length)) := by
  have h1 : (∃ e, sp.to_dict = Except.error e) ↔ ¬ sp.lengthsOk = true := by
    unfold SegmentProperties.to_dict
    cases hok : sp.lengthsOk <;> simp
  rw [h1, lengthsOk_iff]
  simp only [not_and_or, not_forall, Classical.not_imp, exists_prop]

/-- Is this JSON value a string? -/
def Json.isStr : Json → Bool
  | .str _ => true
  | _ => false

/-- Is this JSON value an array of strings? -/
def Json.isStrArr : Json → Bool
  | .arr xs => xs.all Json.isStr
  | _ => false

/-- Is this JSON value an array of integers? -/
def Json.isIntArr : Json → Bool
  | .arr xs => xs.all (fun j => match j with | .int _ => true | _ => false)
  | _ => false

/-- Schema check for one entry of the `properties` list of a serialized
segment-properties object, relative to the number of segment ids: the entry
must be typed `label`, `description`, `tags` or `number`; `tags` entries must
carry a list of tag strings and one index list per segment id; `number`
entries must carry `values` and a `data_type`. -/
def propertyEntryOk (idCount : Nat) (j : Json) : Bool :=
  match j.get? "type" with
  | some (Json.str "label") => (j.get? "values").isSome
  | some (Json.str "description") => (j.get? "values").isSome
  | some (Json.str "tags") =>
      (match j.get? "tags" with
        | some t => t.isStrArr
        | none => false) &&
      (match j.get? "values" with
        | some (Json.arr vs) => vs.length == idCount && vs.all Json.isIntArr
        | _ => false)
  | some (Json.str "number") =>
      (match j.get? "values" with
        | some v => v.isIntArr
        | none => false) &&
      (match j.get? "data_type" with
        | some d => d.isStr
        | none => false)
  | _ => false

/-- Schema check for a serialized segment-properties object: a top-level
`@type` equal to `neuroglancer_segment_properties`, and an `inline` object
holding an `ids` list and a `properties` list of well-typed entries. -/
def segPropsDictOk (j : Json) : Bool :=
  (match j.get? "@type" with
    | some (Json.str t) => t == "neuroglancer_segment_properties"
    | _ => false) &&
  (match j.get? "inline" with
    | some inl =>
        (match inl.get? "ids", inl.get? "properties" with
          | some (Json.arr ids), some (Json.arr props) =>
              props.all (propertyEntryOk ids.length)
          | _, _ => false)
    | none => false)

/-- String-coercion check for a serialized segment-properties object: every
entry of `inline.ids` is a JSON string, and every property entry's `id`
field is a JSON string. -/
def segPropsStringIds (j : Json) : Bool :=
  match j.get? "inline" with
  | some inl =>
      (match inl.get? "ids" with
        | some v => v.isStrArr
        | none => false) &&
      (match inl.get? "properties" with
        | some (Json.arr props) =>
            props.all (fun p =>
              match p.get? "id" with
              | some pid => pid.isStr
              | none => false)
        | _ => false)
  | none => false

/-- C8: the dictionary returned by to_dict has exactly the externally-defined
structure: `@type` equal to `neuroglancer_segment_properties`, an `inline`
object with an `ids` list and a `properties` list, and each property entry
typed `label`, `description`, `tags` or `number`, with `tags` entries
carrying a `tags` list and per-id index lists, and `number` entries carrying
`values` and a `data_type`. -/
theorem propertyEntryOk_label (n : Nat) (l : LabelProperty) :
    propertyEntryOk n (SegmentProperties.labelEntry l) = true := rfl

theorem propertyEntryOk_description (n : Nat) (d : DescriptionProperty) :
    propertyEntryOk n (SegmentProperties.descriptionEntry d) = true := rfl

theorem isStrArr_of_strs (l : List String) :
    Json.isStrArr (Json.arr (l.map Json.str)) = true := by
  simp [Json.isStrArr, Json.isStr, List.all_eq_true]

theorem isIntArr_of_ints (idxs : List Nat) :
    Json.isIntArr (Json.arr (idxs.map (fun i => Json.int (Int.ofNat i)))) = true := by
  simp [Json.isIntArr, List.all_eq_true]

theorem propertyEntryOk_tag (n : Nat) (t : TagProperty)
    (h : t.values.length = n) :
    propertyEntryOk n (SegmentProperties.tagEntry t) = true := by
  have hrfl : propertyEntryOk n (SegmentProperties.tagEntry t) =
      (Json.isStrArr (Json.arr (t.tags.map Json.str)) &&
       (((t.values.map (fun idxs => Json.arr (idxs.map (fun i => Json.int (Int.ofNat i))))).length == n) &&
        (t.values.map (fun idxs => Json.arr (idxs.map (fun i => Json.int (Int.ofNat i))))).all
          Json.isIntArr)) := rfl
  rw [hrfl, isStrArr_of_strs, List.length_map, h]
  simp only [beq_self_eq_true, Bool.true_and, Bool.and_true, List.all_eq_true]
  intro j hj
  obtain ⟨a, ha, rfl⟩ := List.mem_map.mp hj
  exact isIntArr_of_ints a

theorem propertyEntryOk_number (n : Nat) (np : NumberProperty) :
    propertyEntryOk n (SegmentProperties.numberEntry np) = true := by
  simp [propertyEntryOk, SegmentProperties.numberEntry, Json.get?, List.lookup,
    Json.isIntArr, Json.isStr, List.all_eq_true]

/-- Every entry of the serialized property list is schema-correct when the
tag property (if present) has one index list per id. -/
theorem propertyEntries_all_ok (sp : SegmentProperties)
    (ht : ∀ t, sp.tag_property = some t → t.values.length = sp.ids.length) :
    sp.propertyEntries.all (propertyEntryOk sp.ids.length) = true := by
  obtain ⟨ids, lp, dp, tp, nps⟩ := sp
  simp only [SegmentProperties.propertyEntries, List.all_append, List.all_map,
    Bool.and_eq_true, List.all_eq_true]
  refine ⟨⟨⟨?_, ?_⟩, ?_⟩, ?_⟩
  · cases lp <;> simp [propertyEntryOk_label]
  · cases dp <;> simp [propertyEntryOk_description]
  · cases tp with
    | none => simp
    | some t => simpa using propertyEntryOk_tag _ t (ht t rfl)
  · intro j hj
    obtain ⟨np, hnp, rfl⟩ := List.mem_map.mp hj
    exact propertyEntryOk_number _ np

/-- On the exact object shape produced by to_dict, the schema check reduces
to the property-entry checks. -/
theorem segPropsDictOk_reduce (sp : SegmentProperties) :
    segPropsDictOk (Json.obj [("@type", Json.str "neuroglancer_segment_properties"),
      ("inline", Json.obj [("ids", Json.arr (sp.ids.map (fun v => Json.str v.coerce))),
                           ("properties", Json.arr sp.propertyEntries)])]) =
    sp.propertyEntries.all
      (propertyEntryOk (sp.ids.map (fun v => Json.str v.coerce)).length) := rfl

theorem segment_properties_to_dict_schema (sp : SegmentProperties) (j : Json)
    (h : sp.to_dict = Except.ok j) : segPropsDictOk j = true := by
  unfold SegmentProperties.to_dict at h
  split at h
  case isTrue hok =>
    have ht := ((lengthsOk_iff sp).mp hok).2.2.1
    cases h
    rw [segPropsDictOk_reduce, List.length_map]
    exact propertyEntries_all_ok sp ht
  case isFalse hok => cases h

/-- A concrete segment-properties object used to instantiate the theorems:
its ids and one property name are given as integers. -/
def spSample : SegmentProperties :=
  { ids := [CellValue.int 1, CellValue.int 2]
    label_property := some { values := ["a", "b"] }
    description_property := none
    tag_property := some { tags := ["t0", "t1"], values := [[0], [1]] }
    number_properties := [{ id := CellValue.int 7, values := [10, 20], data_type := "int32" }] }

/-- Extract the payload of a successful serialization, `Json.null` on error. -/
def okOr : Except String Json → Json
  | .ok j => j
  | .error _ => .null

/-- Witness for C8 at a concrete segment-properties object. -/
theorem segment_properties_to_dict_schema_witness :
    segPropsDictOk (okOr spSample.to_dict) = true :=
  segment_properties_to_dict_schema spSample (okOr spSample.to_dict) rfl

/-- C9: in the dictionary returned by to_dict, the entries of `inline.ids`
and every property entry's `id` field are strings, even when ids or property
names were supplied as integers. -/
theorem segment_properties_to_dict_string_ids (sp : SegmentProperties) (j : Json)
    (h : sp.to_dict = Except.ok j) : segPropsStringIds j = true := by
  unfold SegmentProperties.to_dict at h
  split at h
  case isTrue hok =>
    obtain ⟨ids, lp, dp, tp, nps⟩ := sp
    cases h
    cases lp <;> cases dp <;> cases tp <;>
      simp_all [segPropsStringIds, Json.get?, List.lookup,
        SegmentProperties.propertyEntries, SegmentProperties.labelEntry,
        SegmentProperties.descriptionEntry, SegmentProperties.tagEntry,
        SegmentProperties.numberEntry, Json.isStrArr, Json.isStr,
        List.all_eq_true]
  case isFalse hok => cases h

/-- Witness for C9 at a concrete segment-properties object with integer ids
and an integer property name. -/
theorem segment_properties_to_dict_string_ids_witness :
    segPropsStringIds (okOr spSample.to_dict) = true :=
  segment_properties_to_dict_string_ids spSample (okOr spSample.to_dict) rfl

/-- Modelled from the spec: a tabular input for from_dataframe, with an id
column, an optional label column, an optional tag-value column whose entries
may be null, and named numeric columns. -/
structure SegDataFrame where
  ids : List Int
  labels : Option (List String)
  tags : Option (List (Option String))
  numbers : List (String × List Int)
deriving Repr, DecidableEq

/-- Insert a string into a sorted list, keeping it sorted. -/
def insertSorted (a : String) : List String → List String
  | [] => [a]
  | b :: bs => if a ≤ b then a :: b :: bs else b :: insertSorted a bs

/-- Sort a list of strings alphabetically (insertion sort). -/
def sortStrings (l : List String) : List String := l.foldr insertSorted []

/-- The tag list generated from a tag-value column: the distinct non-null
values, sorted alphabetically. -/
def uniqueSortedTags (col : List (Option String)) : List String :=
  sortStrings (col.filterMap id).dedup

/-- Encode one row of a tag-value column as a list of tag indices; null
entries get no tag. -/
def encodeTagRow (ts : List String) : Option String → List Nat
  | some t => [ts.indexOf t]
  | none => []

/-- Per-row tag index lists for a whole tag-value column. -/
def tagRowValues (ts : List String) (col : List (Option String)) : List (List Nat) :=
  col.map (encodeTagRow ts)

/-- Decode one row's tag index list back into an optional tag value. -/
def decodeTagRow (ts : List String) : List Nat → Option String
  | [] => none
  | i :: _ => ts[i]?

/-- Modelled from the spec: `SegmentProperties.from_dataframe` builds a
SegmentProperties object from a dataframe: the id column becomes the ids,
the label column a label property, the tag-value column a tag property whose
tags are the sorted distinct non-null values, and each numeric column a
number property. -/
def SegmentProperties.from_dataframe (df : SegDataFrame) : SegmentProperties :=
  { ids := df.ids.map CellValue.int
    label_property := df.labels.map (fun ls => { values := ls })
    description_property := none
    tag_property := df.tags.map (fun col =>
      { tags := uniqueSortedTags col
        values := tagRowValues (uniqueSortedTags col) col })
    number_properties := df.numbers.map (fun p =>
      { id := CellValue.str p.1, values := p.2, data_type := "int32" }) }

/-- Sequence a partial function across a list, failing when any entry fails. -/
def traverseOption {A B : Type} (f : A → Option B) : List A → Option (List B)
  | [] => some []
  | a :: as =>
      match f a, traverseOption f as with
      | some b, some bs => some (b :: bs)
      | _, _ => none

/-- Modelled from the spec: `SegmentProperties.to_dataframe` converts a
SegmentProperties object back to tabular form, decoding tag index lists back
into tag values; it fails when an id cannot be read back as an integer. -/
def SegmentProperties.to_dataframe (sp : SegmentProperties) : Option SegDataFrame :=
  (traverseOption CellValue.toInt? sp.ids).map (fun ids =>
    { ids := ids
      labels := sp.label_property.map (fun l => l.values)
      tags := sp.tag_property.map (fun tp => tp.values.map (decodeTagRow tp.tags))
      numbers := sp.number_properties.map (fun np => (np.id.coerce, np.values)) })

/-- Well-formedness of the tabular input: every column has one entry per id. -/
def SegDataFrame.wf (df : SegDataFrame) : Prop :=
  (∀ ls, df.labels = some ls → ls.length = df.ids.length) ∧
  (∀ col, df.tags = some col → col.length = df.ids.length) ∧
  (∀ p ∈ df.numbers, p.2.length = df.ids.length)

theorem mem_insertSorted (a b : String) (l : List String) :
    a ∈ insertSorted b l ↔ a = b ∨ a ∈ l := by
  induction l with
  | nil => simp [insertSorted]
  | cons c cs ih =>
      by_cases h : b ≤ c
      · simp [insertSorted, h]
      · simp [insertSorted, h, ih]
        tauto

theorem mem_sortStrings (a : String) (l : List String) :
    a ∈ sortStrings l ↔ a ∈ l := by
  induction l with
  | nil => exact Iff.rfl
  | cons c cs ih => simp [sortStrings, mem_insertSorted] at ih ⊢; rw [ih]

theorem mem_uniqueSortedTags (t : String) (col : List (Option String)) :
    t ∈ uniqueSortedTags col ↔ some t ∈ col := by
  simp [uniqueSortedTags, mem_sortStrings, List.mem_dedup, List.mem_filterMap]

theorem getElem?_indexOf_of_mem (l : List String) (a : String) (h : a ∈ l) :
    l[l.indexOf a]? = some a := by
  rw [List.getElem?_eq_getElem (List.indexOf_lt_length.mpr h)]
  simp [List.getElem_indexOf]

/-- Decoding the per-row tag index lists recovers the tag-value column. -/
theorem decode_tagRowValues (ts : List String) (col : List (Option String))
    (hts : ∀ t, some t ∈ col → t ∈ ts) :
    (tagRowValues ts col).map (decodeTagRow ts) = col := by
  induction col with
  | nil => rfl
  | cons o os ih =>
      have hos : ∀ t, some t ∈ os → t ∈ ts :=
        fun t ht => hts t (List.mem_cons_of_mem _ ht)
      cases o with
      | none =>
          simp only [tagRowValues, List.map_cons] at ih ⊢
          rw [ih hos]
          rfl
      | some t =>
          have htm : t ∈ ts := hts t (List.mem_cons_self _ _)
          simp only [tagRowValues, List.map_cons] at ih ⊢
          rw [ih hos]
          simp [encodeTagRow, decodeTagRow, getElem?_indexOf_of_mem ts t htm]

theorem traverseOption_toInt_of_ints (l : List Int) :
    traverseOption CellValue.toInt? (l.map CellValue.int) = some l := by
  induction l with
  | nil => rfl
  | cons a as ih => simp [traverseOption, CellValue.toInt?, ih]

/-- C2: encoding a well-formed dataframe with from_dataframe serializes
without error via to_dict, and decoding back to tabular form with
to_dataframe preserves the segment ids and every property value (labels,
tags and numeric columns) of the original input. -/
theorem segment_properties_dataframe_roundtrip (df : SegDataFrame) (h : df.wf) :
    (∃ j, (SegmentProperties.from_dataframe df).to_dict = Except.ok j) ∧
    (SegmentProperties.from_dataframe df).to_dataframe = some df := by
  obtain ⟨hlab, htag, hnum⟩ := h
  constructor
  · have hok : (SegmentProperties.from_dataframe df).lengthsOk = true := by
      rw [lengthsOk_iff]
      refine ⟨?_, ?_, ?_, ?_⟩
      · intro l hl
        simp only [SegmentProperties.from_dataframe, Option.map_eq_some'] at hl
        obtain ⟨ls, hls, rfl⟩ := hl
        simpa [SegmentProperties.from_dataframe] using hlab ls hls
      · intro d hd
        simp [SegmentProperties.from_dataframe] at hd
      · intro t ht
        simp only [SegmentProperties.from_dataframe, Option.map_eq_some'] at ht
        obtain ⟨col, hcol, rfl⟩ := ht
        simpa [SegmentProperties.from_dataframe, tagRowValues] using htag col hcol
      · intro np hnp
        simp only [SegmentProperties.from_dataframe, List.mem_map] at hnp
        obtain ⟨p, hp, rfl⟩ := hnp
        simpa [SegmentProperties.from_dataframe] using hnum p hp
    exact ⟨_, by rw [SegmentProperties.to_dict, if_pos hok]⟩
  · clear hlab htag hnum
    unfold SegmentProperties.to_dataframe SegmentProperties.from_dataframe
    rw [traverseOption_toInt_of_ints]
    obtain ⟨ids, lab, tags, nums⟩ := df
    simp only [Option.map_some', Option.some.injEq, SegDataFrame.mk.injEq, true_and]
    refine ⟨?_, ?_, ?_⟩
    · cases lab <;> rfl
    · cases tags with
      | none => rfl
      | some col =>
          simp only [Option.map_some', Option.some.injEq]
          exact decode_tagRowValues _ col
            (fun t ht => (mem_uniqueSortedTags t col).mpr ht)
    · induction nums with
      | nil => rfl
      | cons p ps ih =>
          simp only [List.map_cons, CellValue.coerce] at ih ⊢
          rw [ih]

/-- A concrete dataframe used to instantiate the round-trip theorem. -/
def dfSample : SegDataFrame :=
  { ids := [10, 20, 30]
    labels := some ["a", "b", "c"]
    tags := some [some "pyr", none, some "inter"]
    numbers := [("depth", [100, 200, 300])] }

/-- Witness for C2 at a concrete dataframe with a null tag entry. -/
theorem segment_properties_dataframe_roundtrip_witness :
    dfSample.wf ∧
      (SegmentProperties.from_dataframe dfSample).to_dataframe = some dfSample := by
  have hwf : dfSample.wf := by
    refine ⟨?_, ?_, ?_⟩
    · intro ls hls
      simp only [dfSample, Option.some.injEq] at hls
      subst hls
      decide
    · intro col hcol
      simp only [dfSample, Option.some.injEq] at hcol
      subst hcol
      decide
    · intro p hp
      simp only [dfSample, List.mem_singleton] at hp
      subst hp
      decide
  exact ⟨hwf, (segment_properties_dataframe_roundtrip dfSample hwf).2⟩

/-- A 3d coordinate. -/
structure Vec3 where
  x : Int
  y : Int
  z : Int
deriving Repr, DecidableEq

/-- Serialize a coordinate as a JSON array. -/
def Vec3.json (v : Vec3) : Json :=
  .arr [.int v.x, .int v.y, .int v.z]

/-- Modelled from the spec: the geometry payload of one annotation, one of
the four kinds supported by add_points, add_lines, add_boxes, add_ellipses. -/
inductive AnnGeometry where
  | point (pt : Vec3)
  | line (a b : Vec3)
  | box (a b : Vec3)
  | ellipsoid (center radii : Vec3)
deriving Repr, DecidableEq

/-- The JSON type tag of an annotation geometry. -/
def annTypeName : AnnGeometry → String
  | .point _ => "point"
  | .line _ _ => "line"
  | .box _ _ => "axis_aligned_bounding_box"
  | .ellipsoid _ _ => "ellipsoid"

/-- Modelled from the spec: one annotation record of a local annotation
layer: a geometry, linked segment ids, an optional description, and the
indices of its tags in the layer's tag list. -/
structure AnnRecord where
  geometry : AnnGeometry
  segments : List Int
  description : Option String
  tagIdxs : List Nat
deriving Repr, DecidableEq

/-- Modelled from the spec: one row of a dataframe handed to add_points,
add_lines, add_boxes or add_ellipses; pointA holds the point (or center)
column value, pointB the second point (or radii) column value, and any of
the columns may hold missing values. -/
structure AnnRow where
  pointA : Option Vec3
  pointB : Option Vec3
  segment : Option Int
  description : Option String
  tag : Option String
deriving Repr, DecidableEq

/-- The four annotation-adding operations. -/
inductive AnnKind where
  | points
  | lines
  | boxes
  | ellipses
deriving Repr, DecidableEq

/-- The geometry of a row under a given operation; `none` when the row's
required coordinate columns hold missing values. -/
def rowGeometry : AnnKind → AnnRow → Option AnnGeometry
  | .points, r => r.pointA.map AnnGeometry.point
  | .lines, r =>
      match r.pointA, r.pointB with
      | some a, some b => some (AnnGeometry.line a b)
      | _, _ => none
  | .boxes, r =>
      match r.pointA, r.pointB with
      | some a, some b => some (AnnGeometry.box a b)
      | _, _ => none
  | .ellipses, r =>
      match r.pointA, r.pointB with
      | some c, some rd => some (AnnGeometry.ellipsoid c rd)
      | _, _ => none

/-- Convert one row into an annotation record relative to a tag list;
`none` exactly when the required coordinate columns hold missing values. -/
def rowRecord (ts : List String) (k : AnnKind) (r : AnnRow) : Option AnnRecord :=
  (rowGeometry k r).map (fun g =>
    { geometry := g
      segments := match r.segment with | some s => [s] | none => []
      description := r.description
      tagIdxs := encodeTagRow ts r.tag })

/-- Merge the layer's existing tag list with the distinct non-null tag
values found in the data, added alphabetically when not already present. -/
def mergeTags (existing : List String) (fromData : List (Option String)) : List String :=
  existing ++ (uniqueSortedTags fromData).filter (fun t => !(existing.contains t))

/-- A value that is either concrete or an unresolved DataMap placeholder
with an optional key. -/
inductive DataValue (A : Type) where
  | mapped (v : A)
  | datamap (key : Option String)
deriving Repr, DecidableEq

/-- Is this value an unresolved DataMap placeholder? -/
def DataValue.isUnmapped {A : Type} : DataValue A → Bool
  | .datamap _ => true
  | .mapped _ => false

/-- A pending, not-yet-mapped annotation-adding operation recorded on a
layer whose data argument was a DataMap. -/
structure PendingAnnData where
  key : Option String
  kind : AnnKind
deriving Repr, DecidableEq

/-- Modelled from the spec: a local annotation layer with a tag list,
annotation records, and pending DataMap-deferred annotation data. -/
structure AnnotationLayer where
  name : String
  linked_seg : Option String
  tags : List String
  annotations : List AnnRecord
  pending : List PendingAnnData
deriving Repr, DecidableEq

/-- Modelled from the spec: the shared add_points/add_lines/add_boxes/
add_ellipses machinery: with concrete data, tags from the data are merged
into the layer tag list and every row with valid coordinates becomes one
record; with a DataMap, the operation is recorded as pending. -/
def AnnotationLayer.add_rows (layer : AnnotationLayer) (k : AnnKind)
    (data : DataValue (List AnnRow)) : AnnotationLayer :=
  match data with
  | .mapped rows =>
      let ts := mergeTags layer.tags (rows.map (fun r => r.tag))
      { layer with
        tags := ts
        annotations := layer.annotations ++ rows.filterMap (rowRecord ts k) }
  | .datamap key =>
      { layer with pending := layer.pending ++ [{ key := key, kind := k }] }

/-- add_points adds one point record per row with a valid point column. -/
def AnnotationLayer.add_points (layer : AnnotationLayer)
    (data : DataValue (List AnnRow)) : AnnotationLayer :=
  layer.add_rows .points data

/-- add_lines adds one line record per row with valid pointA and pointB. -/
def AnnotationLayer.add_lines (layer : AnnotationLayer)
    (data : DataValue (List AnnRow)) : AnnotationLayer :=
  layer.add_rows .lines data

/-- add_boxes adds one bounding-box record per row with valid corners. -/
def AnnotationLayer.add_boxes (layer : AnnotationLayer)
    (data : DataValue (List AnnRow)) : AnnotationLayer :=
  layer.add_rows .boxes data

/-- add_ellipses adds one ellipsoid record per row with valid center/radii. -/
def AnnotationLayer.add_ellipses (layer : AnnotationLayer)
    (data : DataValue (List AnnRow)) : AnnotationLayer :=
  layer.add_rows .ellipses data

/-- Modelled from the spec: an image layer: a name and a source cloudpath
that may be a DataMap placeholder. -/
structure ImageLayer where
  name : String
  source : DataValue String
deriving Repr, DecidableEq

/-- One row of a dataframe handed to add_segments_from_data: a segment id,
its visibility, and an optional color value. -/
structure SegRow where
  segment : Int
  visible : Bool
  color : Option String
deriving Repr, DecidableEq

/-- Modelled from the spec: a segmentation layer: a name, a source that may
be a DataMap placeholder, selected segments with visibility, and segment
colors. -/
structure SegmentationLayer where
  name : String
  source : DataValue String
  segments : List (Int × Bool)
  segment_colors : List (Int × String)
deriving Repr, DecidableEq

/-- Modelled from the spec: add_segments selects ids as visible segments. -/
def SegmentationLayer.add_segments (l : SegmentationLayer) (ids : List Int) :
    SegmentationLayer :=
  { l with segments := l.segments ++ ids.map (fun s => (s, true)) }

/-- Modelled from the spec: add_segments_from_data selects every segment in
the data, sets visibility from the data, and sets colors from the color
column, ignoring rows whose color value is None. -/
def SegmentationLayer.add_segments_from_data (l : SegmentationLayer)
    (rows : List SegRow) : SegmentationLayer :=
  { l with
    segments := l.segments ++ rows.map (fun r => (r.segment, r.visible))
    segment_colors := l.segment_colors ++
      rows.filterMap (fun r => r.color.map (fun c => (r.segment, c))) }

/-- A layer of a viewer state. -/
inductive Layer where
  | img : ImageLayer → Layer
  | seg : SegmentationLayer → Layer
  | ann : AnnotationLayer → Layer
deriving Repr, DecidableEq

/-- The name of a layer. -/
def Layer.name : Layer → String
  | .img l => l.name
  | .seg l => l.name
  | .ann l => l.name

/-- Does a layer still hold an unresolved DataMap placeholder? -/
def Layer.hasUnmappedData : Layer → Bool
  | .img l => l.source.isUnmapped
  | .seg l => l.source.isUnmapped
  | .ann l => !l.pending.isEmpty

/-- Modelled from the spec: the ViewerState, viewer options plus layers. -/
structure ViewerState where
  position : Option Vec3
  layers : List Layer
deriving Repr, DecidableEq

/-- Does any layer of the state hold an unresolved DataMap placeholder? -/
def ViewerState.hasUnmappedData (vs : ViewerState) : Bool :=
  vs.layers.any Layer.hasUnmappedData

/-- Add a layer to the state. -/
def ViewerState.add_layer (vs : ViewerState) (l : Layer) : ViewerState :=
  { vs with layers := vs.layers ++ [l] }

/-- Errors raised by export operations: an unresolved DataMap placeholder,
or a local annotation layer configured with more than ten tags. -/
inductive ExportError where
  | unmappedData (msg : String)
  | tooManyTags (msg : String)
deriving Repr, DecidableEq

/-- Serialize one annotation record: the type tag, the geometry fields of
the given kind, linked segment ids as strings, the description, and the tag
index list. -/
def AnnRecord.json (a : AnnRecord) : Json :=
  .obj ([("type", Json.str (annTypeName a.geometry))] ++
    (match a.geometry with
      | .point pt => [("point", pt.json)]
      | .line p q => [("pointA", p.json), ("pointB", q.json)]
      | .box p q => [("pointA", p.json), ("pointB", q.json)]
      | .ellipsoid c r => [("center", c.json), ("radii", r.json)]) ++
    [("segments", Json.arr ((a.segments.map (fun s => toString s)).map Json.str)),
     ("description", match a.description with | some d => Json.str d | none => Json.null),
     ("tagIds", Json.arr (a.tagIdxs.map (fun i => Json.int (Int.ofNat i))))])

/-- Serialize the selected segments of a segmentation layer: visible ids. -/
def visibleSegmentStrings (segs : List (Int × Bool)) : List Json :=
  ((segs.filter (fun p => p.2)).map (fun p => toString p.1)).map Json.str

/-- Serialize the hidden segments of a segmentation layer. -/
def hiddenSegmentStrings (segs : List (Int × Bool)) : List Json :=
  ((segs.filter (fun p => !p.2)).map (fun p => toString p.1)).map Json.str

/-- Modelled from the spec: serialize one layer; an unresolved DataMap
source or pending annotation data raises UnmappedDataError, and a local
annotation layer with more than ten tags raises a descriptive error. -/
def Layer.to_json : Layer → Except ExportError Json
  | .img l =>
      match l.source with
      | .mapped s =>
          .ok (.obj [("type", Json.str "image"), ("source", Json.str s),
                     ("name", Json.str l.name)])
      | .datamap _ => .error (.unmappedData "image layer source is an unmapped DataMap")
  | .seg l =>
      match l.source with
      | .mapped s =>
          .ok (.obj [("type", Json.str "segmentation"), ("source", Json.str s),
                     ("name", Json.str l.name),
                     ("segments", Json.arr (visibleSegmentStrings l.segments)),
                     ("hiddenSegments", Json.arr (hiddenSegmentStrings l.segments)),
                     ("segmentColors",
                       Json.obj (l.segment_colors.map (fun p => (toString p.1, Json.str p.2))))])
      | .datamap _ => .error (.unmappedData "segmentation layer source is an unmapped DataMap")
  | .ann l =>
      if l.pending.isEmpty then
        if l.tags.length ≤ 10 then
          .ok (.obj [("type", Json.str "annotation"), ("name", Json.str l.name),
                     ("tags", Json.arr (l.tags.map Json.str)),
                     ("annotations", Json.arr (l.annotations.map AnnRecord.json))])
        else .error (.tooManyTags "a max of ten tags can be used in a single annotation layer")
      else .error (.unmappedData "annotation layer data is an unmapped DataMap")

/-- Serialize a list of layers, failing on the first failing layer. -/
def renderLayers : List Layer → Except ExportError (List Json)
  | [] => .ok []
  | l :: ls =>
      match l.to_json, renderLayers ls with
      | .ok j, .ok js => .ok (j :: js)
      | .error e, _ => .error e
      | .ok _, .error e => .error e

/-- Modelled from the spec: ViewerState.to_dict exports the state document;
it raises UnmappedDataError when any DataMap placeholder is unresolved and
otherwise renders the viewer options and every configured layer. -/
def ViewerState.to_dict (vs : ViewerState) : Except ExportError Json :=
  if vs.hasUnmappedData then
    .error (.unmappedData "DataMap values remain unmapped; call map before exporting")
  else
    match renderLayers vs.layers with
    | .ok ljs =>
        .ok (.obj ((match vs.position with
                     | some p => [("position", p.json)]
                     | none => []) ++
                   [("layout", Json.str "xy-3d"), ("layers", Json.arr ljs)]))
    | .error e => .error e

/-- Render a JSON value as a string. -/
def jsonRender : Json → String
  | .str s => "\"" ++ s ++ "\""
  | .int n => toString n
  | .bool b => toString b
  | .null => "null"
  | .arr xs => "[" ++ String.intercalate "," (xs.attach.map (fun x => jsonRender x.1)) ++ "]"
  | .obj fs => "\x7b" ++
      String.intercalate ","
        (fs.attach.map (fun f => "\"" ++ f.1.1 ++ "\":" ++ jsonRender f.1.2)) ++ "\x7d"
decreasing_by
  · have h1 : sizeOf x.1 < sizeOf xs := List.sizeOf_lt_of_mem x.2
    have h2 : sizeOf xs < sizeOf (Json.arr xs) := by simp
    omega
  · have h1 : sizeOf f.1 < sizeOf fs := List.sizeOf_lt_of_mem f.2
    have h2 : sizeOf f.1.2 < sizeOf f.1 := by
      obtain ⟨x, hx⟩ := f
      obtain ⟨a, b⟩ := x
      simp
    have h3 : sizeOf fs < sizeOf (Json.obj fs) := by simp
    omega

/-- Modelled from the spec: to_json_string renders the exported document. -/
def ViewerState.to_json_string (vs : ViewerState) : Except ExportError String :=
  (vs.to_dict).map jsonRender

/-- Modelled from the spec: to_url builds a Neuroglancer URL from the
exported document. -/
def ViewerState.to_url (vs : ViewerState) (target : String) :
    Except ExportError String :=
  (vs.to_dict).map (fun j => target ++ "#!" ++ jsonRender j)

/-- Modelled from the spec: to_link wraps the URL in an HTML anchor. -/
def ViewerState.to_link (vs : ViewerState) (target : String) :
    Except ExportError String :=
  (vs.to_url target).map (fun u => "<a href=\"" ++ u ++ "\">Neuroglancer Link</a>")

/-- A datum supplied to ViewerState.map: a source cloudpath or a table. -/
inductive Datum where
  | src : String → Datum
  | table : List AnnRow → Datum
deriving Repr, DecidableEq

/-- Resolve a source-valued DataMap against the mapping dictionary; keys
that are absent or hold a non-source datum stay unmapped. -/
def DataValue.resolveSrc (m : List (Option String × Datum)) :
    DataValue String → DataValue String
  | .mapped s => .mapped s
  | .datamap k =>
      match m.lookup k with
      | some (.src s) => .mapped s
      | _ => .datamap k

/-- Apply one pending annotation operation when its key resolves to a table. -/
def applyPending (m : List (Option String × Datum)) (acc : AnnotationLayer)
    (p : PendingAnnData) : AnnotationLayer :=
  match m.lookup p.key with
  | some (.table rows) => acc.add_rows p.kind (DataValue.mapped rows)
  | _ => { acc with pending := acc.pending ++ [p] }

/-- Resolve all pending annotation data of a layer against the dictionary. -/
def AnnotationLayer.resolve (m : List (Option String × Datum))
    (l : AnnotationLayer) : AnnotationLayer :=
  l.pending.foldl (applyPending m) { l with pending := [] }

/-- Resolve the DataMap placeholders of one layer. -/
def Layer.resolve (m : List (Option String × Datum)) : Layer → Layer
  | .img l => .img { l with source := l.source.resolveSrc m }
  | .seg l => .seg { l with source := l.source.resolveSrc m }
  | .ann l => .ann (l.resolve m)

/-- Modelled from the spec: ViewerState.map replaces DataMap placeholders
with the data of the mapping dictionary. -/
def ViewerState.map (vs : ViewerState) (m : List (Option String × Datum)) :
    ViewerState :=
  { vs with layers := vs.layers.map (Layer.resolve m) }

/-- Read a JSON integer. -/
def jsonInt? : Json → Option Int
  | .int n => some n
  | _ => none

/-- Read a JSON string. -/
def jsonStr? : Json → Option String
  | .str s => some s
  | _ => none

/-- Read a JSON array of integers. -/
def parseIntArr (j : Json) : Option (List Int) :=
  match j with
  | .arr xs => traverseOption jsonInt? xs
  | _ => none

/-- Read a JSON array of strings. -/
def parseStrArr (j : Json) : Option (List String) :=
  match j with
  | .arr xs => traverseOption jsonStr? xs
  | _ => none

/-- One row of the parser's annotation dataframe: layer name, annotation
type, coordinate fields, linked segment ids, description and tag names. -/
structure AnnDfRow where
  layer : String
  annType : String
  point : Option (List Int)
  pointA : Option (List Int)
  pointB : Option (List Int)
  center : Option (List Int)
  radii : Option (List Int)
  segments : List String
  description : Option String
  tags : List String
deriving Repr, DecidableEq

/-- Modelled from the spec: parse one annotation record of a layer into a
dataframe row, decoding tag ids into tag names via the layer tag list. -/
def parseAnnRow (layerName : String) (layerTags : List String) (j : Json) :
    Option AnnDfRow :=
  match j.get? "type" with
  | some (Json.str t) =>
      some { layer := layerName
             annType := t
             point := (j.get? "point").bind parseIntArr
             pointA := (j.get? "pointA").bind parseIntArr
             pointB := (j.get? "pointB").bind parseIntArr
             center := (j.get? "center").bind parseIntArr
             radii := (j.get? "radii").bind parseIntArr
             segments :=
               match (j.get? "segments").bind parseStrArr with
               | some ss => ss
               | none => []
             description := (j.get? "description").bind jsonStr?
             tags :=
               match j.get? "tagIds" with
               | some (Json.arr ids) =>
                   (ids.filterMap jsonInt?).filterMap
                     (fun i => layerTags[i.toNat]?)
               | _ => [] }
  | _ => none

/-- The annotation dataframe rows contributed by one layer dictionary. -/
def layerAnnRows (j : Json) : List AnnDfRow :=
  match j.get? "type", j.get? "name" with
  | some (Json.str "annotation"), some (Json.str nm) =>
      let ts := match (j.get? "tags").bind parseStrArr with
                | some ts => ts
                | none => []
      match j.get? "annotations" with
      | some (Json.arr anns) => anns.filterMap (parseAnnRow nm ts)
      | _ => []
  | _, _ => []

/-- Modelled from the spec: StateParser.annotation_dataframe collects one
row per annotation across all annotation layers of a state document. -/
def annotationDataframe (doc : Json) : List AnnDfRow :=
  match doc.get? "layers" with
  | some (Json.arr ls) => (ls.map layerAnnRows).flatten
  | _ => []

/-- One row of the parser's selection dataframe: layer name, segment id and
visibility. -/
structure SelDfRow where
  layer : String
  segment : String
  visible : Bool
deriving Repr, DecidableEq

/-- The selection dataframe rows contributed by one layer dictionary. -/
def layerSelRows (j : Json) : List SelDfRow :=
  match j.get? "type", j.get? "name" with
  | some (Json.str "segmentation"), some (Json.str nm) =>
      (match (j.get? "segments").bind parseStrArr with
        | some ss => ss.map (fun s => { layer := nm, segment := s, visible := true })
        | none => []) ++
      (match (j.get? "hiddenSegments").bind parseStrArr with
        | some ss => ss.map (fun s => { layer := nm, segment := s, visible := false })
        | none => [])
  | _, _ => []

/-- Modelled from the spec: StateParser.selection_dataframe collects one row
per selected segment across all segmentation layers of a state document. -/
def selectionDataframe (doc : Json) : List SelDfRow :=
  match doc.get? "layers" with
  | some (Json.arr ls) => (ls.map layerSelRows).flatten
  | _ => []

/-- Is this export result an UnmappedDataError? -/
def isUnmappedError {A : Type} : Except ExportError A → Bool
  | .error (.unmappedData _) => true
  | _ => false

/-- Extract the payload of a successful export, `Json.null` on error. -/
def okOrE : Except ExportError Json → Json
  | .ok j => j
  | .error _ => .null

/-- C3: when a ViewerState contains an unresolved DataMap placeholder,
every export operation (to_dict, to_json_string, to_url, to_link) raises
an UnmappedDataError rather than producing a document; export succeeds
only when no DataMap placeholder remains unresolved. -/
theorem viewerstate_export_unmapped_error (vs : ViewerState) (target : String) :
    (vs.hasUnmappedData = true →
      (isUnmappedError vs.to_dict = true ∧
       isUnmappedError vs.to_json_string = true ∧
       isUnmappedError (vs.to_url target) = true ∧
       isUnmappedError (vs.to_link target) = true)) ∧
    (∀ j, vs.to_dict = Except.ok j → vs.hasUnmappedData = false) := by
  constructor
  · intro h
    have hd : vs.to_dict = Except.error
        (ExportError.unmappedData "DataMap values remain unmapped; call map before exporting") := by
      unfold ViewerState.to_dict
      rw [if_pos h]
    refine ⟨?_, ?_, ?_, ?_⟩ <;>
      simp [ViewerState.to_json_string, ViewerState.to_url, ViewerState.to_link,
        hd, Except.map, isUnmappedError]
  · intro j hj
    by_contra hno
    rw [Bool.not_eq_false] at hno
    unfold ViewerState.to_dict at hj
    rw [if_pos hno] at hj
    cases hj

/-- A state whose image layer source is an unresolved DataMap. -/
def vsUnmapped : ViewerState :=
  { position := none
    layers := [Layer.img { name := "img", source := DataValue.datamap (some "img_source") }] }

/-- A state whose layers are fully specified. -/
def vsMappedSample : ViewerState :=
  { position := none
    layers := [Layer.img { name := "img", source := DataValue.mapped "precomputed://gs://b/img" }] }

/-- Witness for C3: the theorem applied at a state with an unmapped DataMap
source and at a fully mapped state. -/
theorem viewerstate_export_unmapped_error_witness :
    (vsUnmapped.hasUnmappedData = true ∧
     isUnmappedError vsUnmapped.to_dict = true) ∧
    vsMappedSample.hasUnmappedData = false :=
  ⟨⟨rfl, ((viewerstate_export_unmapped_error vsUnmapped "https://spelunker.cave-explorer.org/").1 rfl).1⟩,
   (viewerstate_export_unmapped_error vsMappedSample "https://spelunker.cave-explorer.org/").2
     (okOrE vsMappedSample.to_dict) rfl⟩

theorem rowRecord_isSome (ts : List String) (k : AnnKind) (r : AnnRow) :
    (rowRecord ts k r).isSome = (rowGeometry k r).isSome := by
  unfold rowRecord
  cases rowGeometry k r <;> rfl

theorem filter_map_eq_filterMap_map_some {A B : Type} (f : A → Option B) (l : List A) :
    (l.filter (fun a => (f a).isSome)).map f = (l.filterMap f).map some := by
  induction l with
  | nil => rfl
  | cons a as ih =>
      cases hfa : f a <;> simp [List.filter_cons, List.filterMap_cons, hfa, ih]

/-- C4: with concrete data, an annotation-adding operation appends exactly
one record per row whose required coordinate columns are valid: the number
of appended records equals the number of valid rows, and in order the i-th
valid row converts to the i-th appended record. -/
theorem annotation_add_one_record_per_valid_row (layer : AnnotationLayer)
    (k : AnnKind) (rows : List AnnRow) :
    ((layer.add_rows k (DataValue.mapped rows)).annotations.length =
       layer.annotations.length +
         (rows.filter (fun r => (rowGeometry k r).isSome)).length) ∧
    ((rows.filter (fun r => (rowGeometry k r).isSome)).map
        (rowRecord (mergeTags layer.tags (rows.map (fun r => r.tag))) k) =
      ((layer.add_rows k (DataValue.mapped rows)).annotations.drop
          layer.annotations.length).map some) := by
  have hfe : rows.filter (fun r => (rowGeometry k r).isSome) =
      rows.filter (fun r =>
        (rowRecord (mergeTags layer.tags (rows.map (fun r => r.tag))) k r).isSome) := by
    apply List.filter_congr
    intro a _
    rw [rowRecord_isSome]
  have hmain : (rows.filter (fun r => (rowGeometry k r).isSome)).map
      (rowRecord (mergeTags layer.tags (rows.map (fun r => r.tag))) k) =
      (rows.filterMap
        (rowRecord (mergeTags layer.tags (rows.map (fun r => r.tag))) k)).map some := by
    rw [hfe, filter_map_eq_filterMap_map_some]
  have hlen : (rows.filter (fun r => (rowGeometry k r).isSome)).length =
      (rows.filterMap
        (rowRecord (mergeTags layer.tags (rows.map (fun r => r.tag))) k)).length := by
    have := congrArg List.length hmain
    simpa using this
  constructor
  · show (layer.annotations ++
      rows.filterMap (rowRecord (mergeTags layer.tags (rows.map (fun r => r.tag))) k)).length = _
    rw [List.length_append, hlen]
  · show _ = ((layer.annotations ++
      rows.filterMap (rowRecord (mergeTags layer.tags (rows.map (fun r => r.tag))) k)).drop
        layer.annotations.length).map some
    rw [List.drop_left, hmain]

/-- C5: rows with missing values in a required column are excluded from the
output rather than raising: the generated tag list keeps exactly the
non-null tag values and null rows encode to no tag; segment colors skip
rows whose color is None while keeping every row with a color; and the
annotation-adding operations drop rows with missing coordinates while still
mapping every row with valid coordinates. -/
theorem missing_values_excluded_not_fatal
    (col : List (Option String)) (ts : List String)
    (layer : AnnotationLayer) (k : AnnKind) (rows : List AnnRow)
    (sl : SegmentationLayer) (srows : List SegRow) :
    (∀ t, t ∈ uniqueSortedTags col ↔ some t ∈ col) ∧
    (∀ o ∈ col, o = none → encodeTagRow ts o = []) ∧
    ((sl.add_segments_from_data srows).segment_colors.length =
       sl.segment_colors.length +
         (srows.filter (fun r => r.color.isSome)).length) ∧
    (∀ r ∈ srows, ∀ c, r.color = some c →
       (r.segment, c) ∈ (sl.add_segments_from_data srows).segment_colors) ∧
    (rows.all (fun r => (rowGeometry k r).isNone) = true →
       (layer.add_rows k (DataValue.mapped rows)).annotations =
         layer.annotations) ∧
    (∀ r ∈ rows, ∀ g, rowGeometry k r = some g →
       ∃ a ∈ (layer.add_rows k (DataValue.mapped rows)).annotations,
         a.geometry = g ∧ a.description = r.description) := by
  refine ⟨?_, ?_, ?_, ?_, ?_, ?_⟩
  · intro t
    exact mem_uniqueSortedTags t col
  · intro o _ ho
    subst ho
    rfl
  · show (sl.segment_colors ++
      srows.filterMap (fun r => r.color.map (fun c => (r.segment, c)))).length = _
    rw [List.length_append]
    congr 1
    have hm := congrArg List.length
      (filter_map_eq_filterMap_map_some
        (fun r => r.color.map (fun c => (r.segment, c))) srows)
    simp only [List.length_map] at hm
    rw [← hm]
    apply congrArg List.length
    apply List.filter_congr
    intro a _
    cases a.color <;> rfl
  · intro r hr c hc
    show (r.segment, c) ∈ sl.segment_colors ++
      srows.filterMap (fun r => r.color.map (fun c => (r.segment, c)))
    apply List.mem_append_right
    apply List.mem_filterMap.mpr
    exact ⟨r, hr, by rw [hc]; rfl⟩
  · intro hall
    show layer.annotations ++ rows.filterMap
      (rowRecord (mergeTags layer.tags (rows.map (fun r => r.tag))) k) =
        layer.annotations
    have hnil : rows.filterMap
        (rowRecord (mergeTags layer.tags (rows.map (fun r => r.tag))) k) = [] := by
      rw [List.filterMap_eq_nil_iff]
      intro a ha
      have hnone := List.all_eq_true.mp hall a ha
      rw [Option.isNone_iff_eq_none] at hnone
      unfold rowRecord
      rw [hnone]
      rfl
    rw [hnil, List.append_nil]
  · intro r hr g hg
    refine ⟨{ geometry := g
              segments := match r.segment with | some s => [s] | none => []
              description := r.description
              tagIdxs := encodeTagRow
                (mergeTags layer.tags (rows.map (fun r => r.tag))) r.tag },
            ?_, rfl, rfl⟩
    show _ ∈ layer.annotations ++ rows.filterMap
      (rowRecord (mergeTags layer.tags (rows.map (fun r => r.tag))) k)
    apply List.mem_append_right
    apply List.mem_filterMap.mpr
    exact ⟨r, hr, by simp [rowRecord, hg]⟩

/-- Witness for C5 at concrete inputs with null and non-null entries. -/
theorem missing_values_excluded_not_fatal_witness :
    (some "t1" ∈ ([some "t1", none] : List (Option String)) →
      "t1" ∈ uniqueSortedTags [some "t1", none]) ∧
    ((({ name := "seg", source := DataValue.mapped "src", segments := [],
         segment_colors := [] } : SegmentationLayer).add_segments_from_data
        [{ segment := 1, visible := true, color := some "#ff0000" },
         { segment := 2, visible := true, color := none }]).segment_colors.length = 1) := by
  have h := missing_values_excluded_not_fatal [some "t1", none] []
    { name := "a", linked_seg := none, tags := [], annotations := [], pending := [] }
    AnnKind.points []
    { name := "seg", source := DataValue.mapped "src", segments := [], segment_colors := [] }
    [{ segment := 1, visible := true, color := some "#ff0000" },
     { segment := 2, visible := true, color := none }]
  refine ⟨fun hm => (h.1 "t1").mpr hm, ?_⟩
  rw [h.2.2.1]
  decide

/-- C10: a local annotation layer never produces a state with more than ten
tags: when the layer serializes successfully, its tag list (whether written
explicitly or merged in from tag columns of the data) has at most ten
entries, and the serialized tags array likewise. -/
theorem annotation_layer_tag_limit (l : AnnotationLayer) (j : Json)
    (h : Layer.to_json (Layer.ann l) = Except.ok j) :
    l.tags.length ≤ 10 ∧
    (∃ ts, j.get? "tags" = some (Json.arr ts) ∧ ts.length ≤ 10) := by
  simp only [Layer.to_json] at h
  by_cases hp : l.pending.isEmpty = true
  · rw [if_pos hp] at h
    by_cases ht : l.tags.length ≤ 10
    · rw [if_pos ht] at h
      cases h
      refine ⟨ht, ⟨l.tags.map Json.str, rfl, by simpa using ht⟩⟩
    · rw [if_neg ht] at h
      cases h
  · rw [if_neg hp] at h
    cases h

/-- A small annotation layer used to instantiate the tag-limit theorem. -/
def annSample : AnnotationLayer :=
  { name := "anns", linked_seg := none, tags := ["a", "b"],
    annotations := [], pending := [] }

/-- Witness for C10 at a concrete annotation layer. -/
theorem annotation_layer_tag_limit_witness :
    annSample.tags.length ≤ 10 ∧
    (∃ ts, (okOrE (Layer.to_json (Layer.ann annSample))).get? "tags" =
        some (Json.arr ts) ∧ ts.length ≤ 10) :=
  annotation_layer_tag_limit annSample
    (okOrE (Layer.to_json (Layer.ann annSample))) rfl

/-- A layer is statically configured: its source is concrete and it holds
no data-driven entries (no annotation records, no pending DataMap data) and
a legal tag list. -/
def Layer.staticOnly : Layer → Prop
  | .img l => l.source.isUnmapped = false
  | .seg l => l.source.isUnmapped = false
  | .ann l => l.annotations = [] ∧ l.pending = [] ∧ l.tags.length ≤ 10

/-- The selection rows a statically configured layer contributes: exactly
its configured segments. -/
def configuredLayerSelRows : Layer → List SelDfRow
  | .seg sl =>
      ((sl.segments.filter (fun p => p.2)).map
        (fun p => { layer := sl.name, segment := toString p.1, visible := true })) ++
      ((sl.segments.filter (fun p => !p.2)).map
        (fun p => { layer := sl.name, segment := toString p.1, visible := false }))
  | _ => []

theorem traverseStr_of_strs (l : List String) :
    traverseOption jsonStr? (l.map Json.str) = some l := by
  induction l with
  | nil => rfl
  | cons a as ih => simp [traverseOption, jsonStr?, ih]

theorem traverseStr_comp {A : Type} (g : A → String) (X : List A) :
    traverseOption jsonStr? (X.map (fun a => Json.str (g a))) = some (X.map g) := by
  induction X with
  | nil => rfl
  | cons a as ih => simp [traverseOption, jsonStr?, ih]

/-- Parsing the serialized segment lists of a segmentation layer recovers
exactly the configured segments with their visibility. -/
theorem layerSelRows_seg (src nm : String) (segs : List (Int × Bool))
    (colors : List (Int × String)) :
    layerSelRows (Json.obj
      [("type", Json.str "segmentation"), ("source", Json.str src),
       ("name", Json.str nm),
       ("segments", Json.arr (visibleSegmentStrings segs)),
       ("hiddenSegments", Json.arr (hiddenSegmentStrings segs)),
       ("segmentColors", Json.obj (colors.map (fun p => (toString p.1, Json.str p.2))))]) =
    (segs.filter (fun p => p.2)).map
      (fun p => { layer := nm, segment := toString p.1, visible := true }) ++
    (segs.filter (fun p => !p.2)).map
      (fun p => { layer := nm, segment := toString p.1, visible := false }) := by
  have hred : layerSelRows (Json.obj
      [("type", Json.str "segmentation"), ("source", Json.str src),
       ("name", Json.str nm),
       ("segments", Json.arr (visibleSegmentStrings segs)),
       ("hiddenSegments", Json.arr (hiddenSegmentStrings segs)),
       ("segmentColors", Json.obj (colors.map (fun p => (toString p.1, Json.str p.2))))]) =
      ((match traverseOption jsonStr? (visibleSegmentStrings segs) with
         | some ss => ss.map (fun s => ({ layer := nm, segment := s, visible := true } : SelDfRow))
         | none => []) ++
       (match traverseOption jsonStr? (hiddenSegmentStrings segs) with
         | some ss => ss.map (fun s => ({ layer := nm, segment := s, visible := false } : SelDfRow))
         | none => [])) := rfl
  rw [hred]
  unfold visibleSegmentStrings hiddenSegmentStrings
  rw [traverseStr_of_strs, traverseStr_of_strs]
  simp only [List.map_map]
  rfl

/-- A statically configured layer serializes successfully, contributes no
annotation rows, contributes exactly its configured selection rows, and
keeps its name. -/
theorem static_layer_json (l : Layer) (h : l.staticOnly) :
    ∃ j, l.to_json = Except.ok j ∧
      layerAnnRows j = [] ∧
      layerSelRows j = configuredLayerSelRows l ∧
      j.get? "name" = some (Json.str l.name) := by
  cases l with
  | img il =>
      cases hs : il.source with
      | mapped s =>
          refine ⟨Json.obj [("type", Json.str "image"), ("source", Json.str s),
                            ("name", Json.str il.name)], ?_, rfl, rfl, rfl⟩
          simp only [Layer.to_json]
          rw [hs]
      | datamap k =>
          exfalso
          have h2 : il.source.isUnmapped = false := h
          rw [hs] at h2
          simp [DataValue.isUnmapped] at h2
  | seg sl =>
      cases hs : sl.source with
      | mapped s =>
          refine ⟨Json.obj [("type", Json.str "segmentation"), ("source", Json.str s),
                   ("name", Json.str sl.name),
                   ("segments", Json.arr (visibleSegmentStrings sl.segments)),
                   ("hiddenSegments", Json.arr (hiddenSegmentStrings sl.segments)),
                   ("segmentColors", Json.obj (sl.segment_colors.map
                     (fun p => (toString p.1, Json.str p.2))))],
                 ?_, rfl, ?_, rfl⟩
          · simp only [Layer.to_json]
            rw [hs]
          · exact layerSelRows_seg s sl.name sl.segments sl.segment_colors
      | datamap k =>
          exfalso
          have h2 : sl.source.isUnmapped = false := h
          rw [hs] at h2
          simp [DataValue.isUnmapped] at h2
  | ann al =>
      obtain ⟨ha, hp, ht⟩ := h
      refine ⟨Json.obj
          [("type", Json.str "annotation"), ("name", Json.str al.name),
           ("tags", Json.arr (al.tags.map Json.str)),
           ("annotations", Json.arr (al.annotations.map AnnRecord.json))],
          ?_, ?_, ?_, ?_⟩
      · simp only [Layer.to_json]
        rw [hp]
        simp only [List.isEmpty_nil, if_true, if_pos ht]
      · rw [ha]
        rfl
      · rfl
      · rfl

/-- Statically configured layers render to a layer list with no annotation
rows, exactly the configured selection rows, and the configured names. -/
theorem renderLayers_static (ls : List Layer) (h : ∀ l ∈ ls, l.staticOnly) :
    ∃ ljs, renderLayers ls = Except.ok ljs ∧
      (ljs.map layerAnnRows).flatten = [] ∧
      (ljs.map layerSelRows).flatten = (ls.map configuredLayerSelRows).flatten ∧
      ljs.map (fun j => j.get? "name") = ls.map (fun l => some (Json.str l.name)) := by
  induction ls with
  | nil => exact ⟨[], rfl, rfl, rfl, rfl⟩
  | cons l rest ih =>
      obtain ⟨ljs, hr, ha, hs, hn⟩ := ih (fun x hx => h x (List.mem_cons_of_mem _ hx))
      obtain ⟨j, hj, hja, hjs, hjn⟩ := static_layer_json l (h l (List.mem_cons_self _ _))
      refine ⟨j :: ljs, ?_, ?_, ?_, ?_⟩
      · unfold renderLayers
        rw [hj, hr]
      · simp [hja, ha]
      · simp [hjs, hs]
      · simp [hjn, hn]

/-- A static layer holds no unmapped DataMap placeholder. -/
theorem staticOnly_not_unmapped (l : Layer) (h : l.staticOnly) :
    l.hasUnmappedData = false := by
  cases l with
  | img il =>
      have h2 : il.source.isUnmapped = false := h
      exact h2
  | seg sl =>
      have h2 : sl.source.isUnmapped = false := h
      exact h2
  | ann al =>
      have h2 : al.pending = [] := h.2.1
      simp only [Layer.hasUnmappedData]
      rw [h2]
      rfl

/-- C7: a ViewerState built only from statically configured layers and given
no row data exports a document containing exactly those configured layers:
the layer list has one entry per configured layer with its name, the parsed
annotation dataframe is empty, and the parsed selection dataframe holds
exactly the configured segments. -/
theorem static_state_document (vs : ViewerState)
    (h : ∀ l ∈ vs.layers, l.staticOnly) :
    ∃ d ljs, vs.to_dict = Except.ok d ∧
      d.get? "layers" = some (Json.arr ljs) ∧
      ljs.map (fun j => j.get? "name") =
        vs.layers.map (fun l => some (Json.str l.name)) ∧
      annotationDataframe d = [] ∧
      selectionDataframe d = (vs.layers.map configuredLayerSelRows).flatten := by
  obtain ⟨ljs, hr, ha, hs, hn⟩ := renderLayers_static vs.layers h
  have hum : vs.hasUnmappedData = false := by
    unfold ViewerState.hasUnmappedData
    rw [List.any_eq_false]
    intro l hl
    rw [staticOnly_not_unmapped l (h l hl)]
    exact Bool.false_ne_true
  refine ⟨Json.obj ((match vs.position with
                     | some p => [("position", p.json)]
                     | none => []) ++
                    [("layout", Json.str "xy-3d"), ("layers", Json.arr ljs)]),
          ljs, ?_, ?_, ?_, ?_, ?_⟩
  · unfold ViewerState.to_dict
    rw [hum]
    simp only [Bool.false_eq_true, if_false]
    rw [hr]
  · cases vs.position <;> rfl
  · exact hn
  · unfold annotationDataframe
    have hg : (Json.obj ((match vs.position with
        | some p => [("position", p.json)]
        | none => []) ++
        [("layout", Json.str "xy-3d"), ("layers", Json.arr ljs)])).get? "layers" =
        some (Json.arr ljs) := by
      cases vs.position <;> rfl
    rw [hg]
    show (ljs.map layerAnnRows).flatten = []
    exact ha
  · unfold selectionDataframe
    have hg : (Json.obj ((match vs.position with
        | some p => [("position", p.json)]
        | none => []) ++
        [("layout", Json.str "xy-3d"), ("layers", Json.arr ljs)])).get? "layers" =
        some (Json.arr ljs) := by
      cases vs.position <;> rfl
    rw [hg]
    show (ljs.map layerSelRows).flatten = _
    exact hs

/-- A fully static state with one of each layer type. -/
def vsStaticSample : ViewerState :=
  { position := none
    layers := [Layer.img { name := "img", source := DataValue.mapped "precomputed://img" },
               Layer.seg { name := "seg", source := DataValue.mapped "precomputed://seg",
                           segments := [(5, true), (6, false)], segment_colors := [] },
               Layer.ann { name := "anns", linked_seg := some "seg", tags := [],
                           annotations := [], pending := [] }] }

/-- Witness for C7 at a concrete static state. -/
theorem static_state_document_witness :
    (∀ l ∈ vsStaticSample.layers, l.staticOnly) ∧
    ∃ d ljs, vsStaticSample.to_dict = Except.ok d ∧
      d.get? "layers" = some (Json.arr ljs) ∧
      ljs.map (fun j => j.get? "name") =
        vsStaticSample.layers.map (fun l => some (Json.str l.name)) ∧
      annotationDataframe d = [] ∧
      selectionDataframe d =
        (vsStaticSample.layers.map configuredLayerSelRows).flatten := by
  have hst : ∀ l ∈ vsStaticSample.layers, l.staticOnly := by
    intro l hl
    simp only [vsStaticSample, List.mem_cons, List.mem_singleton] at hl
    rcases hl with rfl | rfl | rfl | hl
    · rfl
    · rfl
    · exact ⟨rfl, rfl, by decide⟩
    · cases hl
  exact ⟨hst, static_state_document vsStaticSample hst⟩

/-- The `point` field a parsed row reads off a geometry. -/
def geomPoint : AnnGeometry → Option (List Int)
  | .point v => some [v.x, v.y, v.z]
  | _ => none

/-- The `pointA` field a parsed row reads off a geometry. -/
def geomPointA : AnnGeometry → Option (List Int)
  | .line p _ => some [p.x, p.y, p.z]
  | .box p _ => some [p.x, p.y, p.z]
  | _ => none

/-- The `pointB` field a parsed row reads off a geometry. -/
def geomPointB : AnnGeometry → Option (List Int)
  | .line _ q => some [q.x, q.y, q.z]
  | .box _ q => some [q.x, q.y, q.z]
  | _ => none

/-- The `center` field a parsed row reads off a geometry. -/
def geomCenter : AnnGeometry → Option (List Int)
  | .ellipsoid c _ => some [c.x, c.y, c.z]
  | _ => none

/-- The `radii` field a parsed row reads off a geometry. -/
def geomRadii : AnnGeometry → Option (List Int)
  | .ellipsoid _ r => some [r.x, r.y, r.z]
  | _ => none

/-- The dataframe row the parser recovers from one serialized record. -/
def parsedOf (nm : String) (ts : List String) (a : AnnRecord) : AnnDfRow :=
  { layer := nm
    annType := annTypeName a.geometry
    point := geomPoint a.geometry
    pointA := geomPointA a.geometry
    pointB := geomPointB a.geometry
    center := geomCenter a.geometry
    radii := geomRadii a.geometry
    segments := a.segments.map (fun s => toString s)
    description := a.description
    tags := a.tagIdxs.filterMap (fun i => ts[i]?) }

theorem traverseOption_str_toString (segs : List Int) :
    traverseOption jsonStr? (segs.map (fun s => Json.str (toString s))) =
      some (segs.map (fun s => toString s)) := by
  induction segs with
  | nil => rfl
  | cons a as ih => simp [traverseOption, jsonStr?, Function.comp, ih]

theorem filterMap_some_map {A B : Type} (f : A → B) (l : List A) :
    l.filterMap (fun a => some (f a)) = l.map f := by
  induction l with
  | nil => rfl
  | cons a as ih =>
      simp only [List.filterMap_cons, List.map_cons]
      rw [ih]

theorem toNat_getElem_comp (ts : List String) (tis : List Nat) :
    (tis.map (fun i => Int.ofNat i)).filterMap (fun i => ts[i.toNat]?) =
      tis.filterMap (fun i => ts[i]?) := by
  induction tis with
  | nil => rfl
  | cons a as ih =>
      have hred : (Int.ofNat a).toNat = a := rfl
      simp only [List.map_cons, List.filterMap_cons, hred]
      rw [ih]

/-- Parsing one serialized annotation record recovers its fields. -/
theorem parse_json_record (nm : String) (ts : List String) (a : AnnRecord) :
    parseAnnRow nm ts (AnnRecord.json a) = some (parsedOf nm ts a) := by
  obtain ⟨g, segs, desc, tis⟩ := a
  cases g <;> cases desc <;>
    simp [parseAnnRow, parsedOf, AnnRecord.json, annTypeName, Json.get?,
      List.lookup, Vec3.json, parseStrArr, parseIntArr, traverseOption,
      traverseStr_of_strs, jsonStr?, jsonInt?, Function.comp_def,
      traverseOption_str_toString, filterMap_some_map, toNat_getElem_comp,
      geomPoint, geomPointA, geomPointB, geomCenter, geomRadii]

theorem filterMap_map_all_some {A B C : Type} (f : A → B) (g : B → Option C)
    (hfn : A → C) (l : List A) (hall : ∀ a ∈ l, g (f a) = some (hfn a)) :
    (l.map f).filterMap g = l.map hfn := by
  induction l with
  | nil => rfl
  | cons a as ih =>
      simp only [List.map_cons, List.filterMap_cons,
        hall a (List.mem_cons_self _ _)]
      rw [ih (fun x hx => hall x (List.mem_cons_of_mem _ hx))]

/-- With no pre-existing tags, the merged tag list is exactly the sorted
distinct non-null data tags. -/
theorem mergeTags_nil (x : List (Option String)) :
    mergeTags [] x = uniqueSortedTags x := by
  simp [mergeTags]

/-- Parsing the serialized annotation layer recovers one parsed row per
record. -/
theorem layerAnnRows_ann (nm : String) (ts : List String)
    (anns : List AnnRecord) :
    layerAnnRows (Json.obj
      [("type", Json.str "annotation"), ("name", Json.str nm),
       ("tags", Json.arr (ts.map Json.str)),
       ("annotations", Json.arr (anns.map AnnRecord.json))]) =
    anns.map (parsedOf nm ts) := by
  have hred : layerAnnRows (Json.obj
      [("type", Json.str "annotation"), ("name", Json.str nm),
       ("tags", Json.arr (ts.map Json.str)),
       ("annotations", Json.arr (anns.map AnnRecord.json))]) =
      (anns.map AnnRecord.json).filterMap
        (parseAnnRow nm (match traverseOption jsonStr? (ts.map Json.str) with
          | some xs => xs
          | none => [])) := rfl
  rw [hred, traverseStr_of_strs]
  exact filterMap_map_all_some _ _ _ anns (fun a _ => parse_json_record nm ts a)

/-- An annotation layer with no pending data and a legal tag list
serializes to its annotation-layer dictionary. -/
theorem ann_to_json_ok (al : AnnotationLayer) (hp : al.pending = [])
    (ht : al.tags.length ≤ 10) :
    Layer.to_json (Layer.ann al) = Except.ok (Json.obj
      [("type", Json.str "annotation"), ("name", Json.str al.name),
       ("tags", Json.arr (al.tags.map Json.str)),
       ("annotations", Json.arr (al.annotations.map AnnRecord.json))]) := by
  simp only [Layer.to_json]
  rw [hp]
  simp only [List.isEmpty_nil, if_true, if_pos ht]

set_option maxHeartbeats 1000000 in
/-- C6: exporting a document built from a segment selection and a point
dataframe and re-parsing it with the StateParser dataframe methods yields
the same row count and the same field values (coordinates, linked segment
ids, descriptions, tags) as the original input table. -/
theorem export_reparse_roundtrip (segName annName src : String)
    (lsg : Option String) (segIds : List Int) (rows : List AnnRow)
    (ht : (mergeTags [] (rows.map (fun r => r.tag))).length ≤ 10) :
    ∃ d, (ViewerState.mk none
        [Layer.seg (SegmentationLayer.add_segments
            { name := segName, source := DataValue.mapped src,
              segments := [], segment_colors := [] } segIds),
         Layer.ann (AnnotationLayer.add_points
            { name := annName, linked_seg := lsg, tags := [],
              annotations := [], pending := [] }
            (DataValue.mapped rows))]).to_dict = Except.ok d ∧
      (annotationDataframe d).length =
        (rows.filter (fun r => r.pointA.isSome)).length ∧
      annotationDataframe d =
        (rows.filter (fun r => r.pointA.isSome)).map (fun r =>
        ({ layer := annName
           annType := "point"
           point := r.pointA.map (fun v => [v.x, v.y, v.z])
           pointA := none
           pointB := none
           center := none
           radii := none
           segments := match r.segment with | some s => [toString s] | none => []
           description := r.description
           tags := match r.tag with | some t => [t] | none => [] } : AnnDfRow)) ∧
      selectionDataframe d = segIds.map (fun s =>
          ({ layer := segName, segment := toString s, visible := true } : SelDfRow)) := by
  have hvalid : rows.filter (fun r => r.pointA.isSome) =
      rows.filter (fun r => (rowRecord (mergeTags [] (rows.map (fun r => r.tag))) AnnKind.points r).isSome) := by
    apply List.filter_congr
    intro a _
    rw [rowRecord_isSome]
    cases ha : a.pointA <;> simp [rowGeometry, ha]
  have hcorr := filter_map_eq_filterMap_map_some (rowRecord (mergeTags [] (rows.map (fun r => r.tag))) AnnKind.points) rows
  have hrow : ∀ r ∈ rows, r.pointA.isSome = true →
      Option.map (parsedOf annName (mergeTags [] (rows.map (fun r => r.tag)))) (rowRecord (mergeTags [] (rows.map (fun r => r.tag))) AnnKind.points r) =
        some ({ layer := annName
                annType := "point"
                point := r.pointA.map (fun v => [v.x, v.y, v.z])
                pointA := none
                pointB := none
                center := none
                radii := none
                segments := match r.segment with | some s => [toString s] | none => []
                description := r.description
                tags := match r.tag with | some t => [t] | none => [] } : AnnDfRow) := by
    intro r hr hv
    obtain ⟨v, hv2⟩ := Option.isSome_iff_exists.mp hv
    cases hsg : r.segment with
    | none =>
        cases htg : r.tag with
        | none =>
            simp [rowRecord, rowGeometry, hv2, parsedOf, geomPoint, geomPointA,
              geomPointB, geomCenter, geomRadii, annTypeName, encodeTagRow, hsg, htg]
        | some t =>
            have htm : t ∈ (mergeTags [] (rows.map (fun r => r.tag))) := by
              rw [mergeTags_nil, mem_uniqueSortedTags]
              exact List.mem_map.mpr ⟨r, hr, htg⟩
            simp [rowRecord, rowGeometry, hv2, parsedOf, geomPoint, geomPointA,
              geomPointB, geomCenter, geomRadii, annTypeName, encodeTagRow, hsg, htg,
              getElem?_indexOf_of_mem (mergeTags [] (rows.map (fun r => r.tag))) t htm]
    | some s =>
        cases htg : r.tag with
        | none =>
            simp [rowRecord, rowGeometry, hv2, parsedOf, geomPoint, geomPointA,
              geomPointB, geomCenter, geomRadii, annTypeName, encodeTagRow, hsg, htg]
        | some t =>
            have htm : t ∈ (mergeTags [] (rows.map (fun r => r.tag))) := by
              rw [mergeTags_nil, mem_uniqueSortedTags]
              exact List.mem_map.mpr ⟨r, hr, htg⟩
            simp [rowRecord, rowGeometry, hv2, parsedOf, geomPoint, geomPointA,
              geomPointB, geomCenter, geomRadii, annTypeName, encodeTagRow, hsg, htg,
              getElem?_indexOf_of_mem (mergeTags [] (rows.map (fun r => r.tag))) t htm]
  have hcore : (rows.filterMap (rowRecord (mergeTags [] (rows.map (fun r => r.tag))) AnnKind.points)).map (parsedOf annName (mergeTags [] (rows.map (fun r => r.tag)))) =
      (rows.filter (fun r => r.pointA.isSome)).map (fun r =>
        ({ layer := annName
           annType := "point"
           point := r.pointA.map (fun v => [v.x, v.y, v.z])
           pointA := none
           pointB := none
           center := none
           radii := none
           segments := match r.segment with | some s => [toString s] | none => []
           description := r.description
           tags := match r.tag with | some t => [t] | none => [] } : AnnDfRow)) := by
    apply List.map_injective_iff.mpr (Option.some_injective _)
    calc ((rows.filterMap (rowRecord (mergeTags [] (rows.map (fun r => r.tag))) AnnKind.points)).map (parsedOf annName (mergeTags [] (rows.map (fun r => r.tag))))).map some
        = ((rows.filterMap (rowRecord (mergeTags [] (rows.map (fun r => r.tag))) AnnKind.points)).map some).map
            (Option.map (parsedOf annName (mergeTags [] (rows.map (fun r => r.tag))))) := by
          rw [List.map_map, List.map_map]
          rfl
      _ = ((rows.filter (fun r => (rowRecord (mergeTags [] (rows.map (fun r => r.tag))) AnnKind.points r).isSome)).map
            (rowRecord (mergeTags [] (rows.map (fun r => r.tag))) AnnKind.points)).map
            (Option.map (parsedOf annName (mergeTags [] (rows.map (fun r => r.tag))))) := by rw [hcorr]
      _ = (rows.filter (fun r => r.pointA.isSome)).map
            (fun r => Option.map (parsedOf annName (mergeTags [] (rows.map (fun r => r.tag)))) (rowRecord (mergeTags [] (rows.map (fun r => r.tag))) AnnKind.points r)) := by
          rw [← hvalid, List.map_map]
          rfl
      _ = (rows.filter (fun r => r.pointA.isSome)).map (fun r =>
            some ({ layer := annName
                    annType := "point"
                    point := r.pointA.map (fun v => [v.x, v.y, v.z])
                    pointA := none
                    pointB := none
                    center := none
                    radii := none
                    segments := match r.segment with | some s => [toString s] | none => []
                    description := r.description
                    tags := match r.tag with | some t => [t] | none => [] } : AnnDfRow)) := by
          apply List.map_congr_left
          intro a ha
          exact hrow a (List.mem_of_mem_filter ha)
            (by simpa using List.of_mem_filter ha)
      _ = ((rows.filter (fun r => r.pointA.isSome)).map (fun r =>
        ({ layer := annName
           annType := "point"
           point := r.pointA.map (fun v => [v.x, v.y, v.z])
           pointA := none
           pointB := none
           center := none
           radii := none
           segments := match r.segment with | some s => [toString s] | none => []
           description := r.description
           tags := match r.tag with | some t => [t] | none => [] } : AnnDfRow))).map some := by
          rw [List.map_map]
          rfl
  have hsegjson : Layer.to_json (Layer.seg (SegmentationLayer.add_segments
      { name := segName, source := DataValue.mapped src, segments := [],
        segment_colors := [] } segIds)) = Except.ok (Json.obj
      [("type", Json.str "segmentation"), ("source", Json.str src),
       ("name", Json.str segName),
       ("segments", Json.arr (visibleSegmentStrings (segIds.map (fun s => (s, true))))),
       ("hiddenSegments", Json.arr (hiddenSegmentStrings (segIds.map (fun s => (s, true))))),
       ("segmentColors", Json.obj ((([] : List (Int × String))).map
         (fun p => (toString p.1, Json.str p.2))))]) := rfl
  have hl : AnnotationLayer.add_points
      { name := annName, linked_seg := lsg, tags := [], annotations := [],
        pending := [] } (DataValue.mapped rows) =
      { name := annName, linked_seg := lsg,
        tags := (mergeTags [] (rows.map (fun r => r.tag))),
        annotations := rows.filterMap (rowRecord (mergeTags [] (rows.map (fun r => r.tag))) AnnKind.points),
        pending := [] } := rfl
  have hannjson : Layer.to_json (Layer.ann (AnnotationLayer.add_points
      { name := annName, linked_seg := lsg, tags := [], annotations := [],
        pending := [] } (DataValue.mapped rows))) = Except.ok (Json.obj
      [("type", Json.str "annotation"), ("name", Json.str annName),
       ("tags", Json.arr ((mergeTags [] (rows.map (fun r => r.tag))).map Json.str)),
       ("annotations", Json.arr ((rows.filterMap (rowRecord (mergeTags [] (rows.map (fun r => r.tag))) AnnKind.points)).map AnnRecord.json))]) := by
    rw [hl]
    exact ann_to_json_ok _ rfl ht
  have hto : (ViewerState.mk none
        [Layer.seg (SegmentationLayer.add_segments
            { name := segName, source := DataValue.mapped src,
              segments := [], segment_colors := [] } segIds),
         Layer.ann (AnnotationLayer.add_points
            { name := annName, linked_seg := lsg, tags := [],
              annotations := [], pending := [] }
            (DataValue.mapped rows))]).to_dict = Except.ok (Json.obj [("layout", Json.str "xy-3d"),
      ("layers", Json.arr [Json.obj
      [("type", Json.str "segmentation"), ("source", Json.str src),
       ("name", Json.str segName),
       ("segments", Json.arr (visibleSegmentStrings (segIds.map (fun s => (s, true))))),
       ("hiddenSegments", Json.arr (hiddenSegmentStrings (segIds.map (fun s => (s, true))))),
       ("segmentColors", Json.obj ((([] : List (Int × String))).map
         (fun p => (toString p.1, Json.str p.2))))], Json.obj
      [("type", Json.str "annotation"), ("name", Json.str annName),
       ("tags", Json.arr ((mergeTags [] (rows.map (fun r => r.tag))).map Json.str)),
       ("annotations", Json.arr ((rows.filterMap (rowRecord (mergeTags [] (rows.map (fun r => r.tag))) AnnKind.points)).map AnnRecord.json))]])]) := by
    unfold ViewerState.to_dict
    rw [show (ViewerState.mk none
        [Layer.seg (SegmentationLayer.add_segments
            { name := segName, source := DataValue.mapped src,
              segments := [], segment_colors := [] } segIds),
         Layer.ann (AnnotationLayer.add_points
            { name := annName, linked_seg := lsg, tags := [],
              annotations := [], pending := [] }
            (DataValue.mapped rows))]).hasUnmappedData = false from rfl]
    simp only [Bool.false_eq_true, if_false]
    simp only [renderLayers, hsegjson, hannjson]
    rfl
  have hann3 : annotationDataframe (Json.obj [("layout", Json.str "xy-3d"),
      ("layers", Json.arr [Json.obj
      [("type", Json.str "segmentation"), ("source", Json.str src),
       ("name", Json.str segName),
       ("segments", Json.arr (visibleSegmentStrings (segIds.map (fun s => (s, true))))),
       ("hiddenSegments", Json.arr (hiddenSegmentStrings (segIds.map (fun s => (s, true))))),
       ("segmentColors", Json.obj ((([] : List (Int × String))).map
         (fun p => (toString p.1, Json.str p.2))))], Json.obj
      [("type", Json.str "annotation"), ("name", Json.str annName),
       ("tags", Json.arr ((mergeTags [] (rows.map (fun r => r.tag))).map Json.str)),
       ("annotations", Json.arr ((rows.filterMap (rowRecord (mergeTags [] (rows.map (fun r => r.tag))) AnnKind.points)).map AnnRecord.json))]])]) = (rows.filter (fun r => r.pointA.isSome)).map (fun r =>
        ({ layer := annName
           annType := "point"
           point := r.pointA.map (fun v => [v.x, v.y, v.z])
           pointA := none
           pointB := none
           center := none
           radii := none
           segments := match r.segment with | some s => [toString s] | none => []
           description := r.description
           tags := match r.tag with | some t => [t] | none => [] } : AnnDfRow)) := by
    unfold annotationDataframe
    rw [show (Json.obj [("layout", Json.str "xy-3d"),
      ("layers", Json.arr [Json.obj
      [("type", Json.str "segmentation"), ("source", Json.str src),
       ("name", Json.str segName),
       ("segments", Json.arr (visibleSegmentStrings (segIds.map (fun s => (s, true))))),
       ("hiddenSegments", Json.arr (hiddenSegmentStrings (segIds.map (fun s => (s, true))))),
       ("segmentColors", Json.obj ((([] : List (Int × String))).map
         (fun p => (toString p.1, Json.str p.2))))], Json.obj
      [("type", Json.str "annotation"), ("name", Json.str annName),
       ("tags", Json.arr ((mergeTags [] (rows.map (fun r => r.tag))).map Json.str)),
       ("annotations", Json.arr ((rows.filterMap (rowRecord (mergeTags [] (rows.map (fun r => r.tag))) AnnKind.points)).map AnnRecord.json))]])]).get? "layers" = some (Json.arr [Json.obj
      [("type", Json.str "segmentation"), ("source", Json.str src),
       ("name", Json.str segName),
       ("segments", Json.arr (visibleSegmentStrings (segIds.map (fun s => (s, true))))),
       ("hiddenSegments", Json.arr (hiddenSegmentStrings (segIds.map (fun s => (s, true))))),
       ("segmentColors", Json.obj ((([] : List (Int × String))).map
         (fun p => (toString p.1, Json.str p.2))))], Json.obj
      [("type", Json.str "annotation"), ("name", Json.str annName),
       ("tags", Json.arr ((mergeTags [] (rows.map (fun r => r.tag))).map Json.str)),
       ("annotations", Json.arr ((rows.filterMap (rowRecord (mergeTags [] (rows.map (fun r => r.tag))) AnnKind.points)).map AnnRecord.json))]]) from rfl]
    show ([] : List AnnDfRow) ++ (layerAnnRows (Json.obj
      [("type", Json.str "annotation"), ("name", Json.str annName),
       ("tags", Json.arr ((mergeTags [] (rows.map (fun r => r.tag))).map Json.str)),
       ("annotations", Json.arr ((rows.filterMap (rowRecord (mergeTags [] (rows.map (fun r => r.tag))) AnnKind.points)).map AnnRecord.json))]) ++ []) = _
    rw [List.nil_append, List.append_nil, layerAnnRows_ann, hcore]
  have hfv : (segIds.map (fun s => (s, true))).filter (fun p => p.2) =
      segIds.map (fun s => (s, true)) := by
    rw [List.filter_eq_self]
    intro p hp
    obtain ⟨s, _, rfl⟩ := List.mem_map.mp hp
    rfl
  have hfh : (segIds.map (fun s => (s, true))).filter (fun p => !p.2) = [] := by
    rw [List.filter_eq_nil_iff]
    intro p hp
    obtain ⟨s, _, rfl⟩ := List.mem_map.mp hp
    simp
  have hsel : selectionDataframe (Json.obj [("layout", Json.str "xy-3d"),
      ("layers", Json.arr [Json.obj
      [("type", Json.str "segmentation"), ("source", Json.str src),
       ("name", Json.str segName),
       ("segments", Json.arr (visibleSegmentStrings (segIds.map (fun s => (s, true))))),
       ("hiddenSegments", Json.arr (hiddenSegmentStrings (segIds.map (fun s => (s, true))))),
       ("segmentColors", Json.obj ((([] : List (Int × String))).map
         (fun p => (toString p.1, Json.str p.2))))], Json.obj
      [("type", Json.str "annotation"), ("name", Json.str annName),
       ("tags", Json.arr ((mergeTags [] (rows.map (fun r => r.tag))).map Json.str)),
       ("annotations", Json.arr ((rows.filterMap (rowRecord (mergeTags [] (rows.map (fun r => r.tag))) AnnKind.points)).map AnnRecord.json))]])]) = segIds.map (fun s =>
      ({ layer := segName, segment := toString s, visible := true } : SelDfRow)) := by
    unfold selectionDataframe
    rw [show (Json.obj [("layout", Json.str "xy-3d"),
      ("layers", Json.arr [Json.obj
      [("type", Json.str "segmentation"), ("source", Json.str src),
       ("name", Json.str segName),
       ("segments", Json.arr (visibleSegmentStrings (segIds.map (fun s => (s, true))))),
       ("hiddenSegments", Json.arr (hiddenSegmentStrings (segIds.map (fun s => (s, true))))),
       ("segmentColors", Json.obj ((([] : List (Int × String))).map
         (fun p => (toString p.1, Json.str p.2))))], Json.obj
      [("type", Json.str "annotation"), ("name", Json.str annName),
       ("tags", Json.arr ((mergeTags [] (rows.map (fun r => r.tag))).map Json.str)),
       ("annotations", Json.arr ((rows.filterMap (rowRecord (mergeTags [] (rows.map (fun r => r.tag))) AnnKind.points)).map AnnRecord.json))]])]).get? "layers" = some (Json.arr [Json.obj
      [("type", Json.str "segmentation"), ("source", Json.str src),
       ("name", Json.str segName),
       ("segments", Json.arr (visibleSegmentStrings (segIds.map (fun s => (s, true))))),
       ("hiddenSegments", Json.arr (hiddenSegmentStrings (segIds.map (fun s => (s, true))))),
       ("segmentColors", Json.obj ((([] : List (Int × String))).map
         (fun p => (toString p.1, Json.str p.2))))], Json.obj
      [("type", Json.str "annotation"), ("name", Json.str annName),
       ("tags", Json.arr ((mergeTags [] (rows.map (fun r => r.tag))).map Json.str)),
       ("annotations", Json.arr ((rows.filterMap (rowRecord (mergeTags [] (rows.map (fun r => r.tag))) AnnKind.points)).map AnnRecord.json))]]) from rfl]
    show layerSelRows (Json.obj
      [("type", Json.str "segmentation"), ("source", Json.str src),
       ("name", Json.str segName),
       ("segments", Json.arr (visibleSegmentStrings (segIds.map (fun s => (s, true))))),
       ("hiddenSegments", Json.arr (hiddenSegmentStrings (segIds.map (fun s => (s, true))))),
       ("segmentColors", Json.obj ((([] : List (Int × String))).map
         (fun p => (toString p.1, Json.str p.2))))]) ++ (([] : List SelDfRow) ++ []) = _
    rw [layerSelRows_seg src segName (segIds.map (fun s => (s, true))) [],
      hfv, hfh]
    simp [List.map_map, Function.comp_def]
  refine ⟨_, hto, ?_, hann3, hsel⟩
  rw [hann3, List.length_map]

/-- Concrete annotation rows: one valid row with segment, description and
tag, and one row with a missing point. -/
def rowsSample : List AnnRow :=
  [{ pointA := some { x := 1, y := 2, z := 3 }, pointB := none,
     segment := some 42, description := some "cell", tag := some "good" },
   { pointA := none, pointB := none, segment := none,
     description := none, tag := none }]

/-- Witness for C6 at concrete inputs. -/
theorem export_reparse_roundtrip_witness :
    (mergeTags [] (rowsSample.map (fun r => r.tag))).length ≤ 10 ∧
    (∃ d, (ViewerState.mk none
        [Layer.seg (SegmentationLayer.add_segments
            { name := "seg", source := DataValue.mapped "precomputed://x",
              segments := [], segment_colors := [] } [7]),
         Layer.ann (AnnotationLayer.add_points
            { name := "anns", linked_seg := none, tags := [],
              annotations := [], pending := [] }
            (DataValue.mapped rowsSample))]).to_dict = Except.ok d ∧
      (annotationDataframe d).length =
        (rowsSample.filter (fun r => r.pointA.isSome)).length ∧
      annotationDataframe d =
        (rowsSample.filter (fun r => r.pointA.isSome)).map (fun r =>
        ({ layer := "anns"
           annType := "point"
           point := r.pointA.map (fun v => [v.x, v.y, v.z])
           pointA := none
           pointB := none
           center := none
           radii := none
           segments := match r.segment with | some s => [toString s] | none => []
           description := r.description
           tags := match r.tag with | some t => [t] | none => [] } : AnnDfRow)) ∧
      selectionDataframe d = [7].map (fun s =>
          ({ layer := "seg", segment := toString s, visible := true } : SelDfRow))) :=
  ⟨by decide, export_reparse_roundtrip "seg" "anns" "precomputed://x" none
    [7] rowsSample (by decide)⟩

end Nglui
